import Mathlib

set_option autoImplicit false
set_option linter.unusedVariables false

/-!
Shallow embedding of `src/store/bdb.c`, the Berkeley DB backend of the
key/value Store.

The adapter's own control flow (null checks, the `goto` unwind ladder of
`store_bdb_open`, the release sequence of `store_bdb_close`, the DBT
set-up of fetch/store/delete) is translated directly from the C source.
The calls it makes into code that is not part of this tree — the POSIX
syscalls `open`/`close`/`unlink`, NeoMutt's `mutt_file_lock` /
`mutt_file_unlock`, and the Berkeley DB engine entry points
(`db_env_create`, `env->open`, `db_create`, `db->open`, `db->get`,
`db->put`, `db->del`, `db->close`, `env->close`) — are modelled from the
spec as explicit transitions on a system-resource state `Sys`, with a
boolean oracle choosing each external call's success or failure.
-/

/-- A byte sequence. A C `(pointer, length)` pair collapses to one list:
the list is exactly the `len` bytes the pointer designates, so the
separate `klen`/`vlen` input arguments of the C functions are carried by
the list itself. -/
abbrev Bytes := List Nat

/-- Modelled from the spec: the content of one Berkeley DB btree database
(`DB *`), a key/value map with unique keys, as an association list. -/
abbrev DbTable := List (Bytes × Bytes)

/-- `DB_NOTFOUND` from `db.h`: the engine's "key absent" return code.
Only its being nonzero matters to the adapter. -/
def DB_NOTFOUND : Int := -30988

/-- `DB_DBT_USERMEM` flag from `db.h` (value as in DB 5.3; only
distinctness from the other flags matters). -/
def DB_DBT_USERMEM : Nat := 0x200

/-- `DB_DBT_MALLOC` flag from `db.h`: the engine mallocs the result
buffer, transferring ownership to the caller. -/
def DB_DBT_MALLOC : Nat := 0x010

/-- `DB_CREATE` flag from `db.h`. -/
def DB_CREATE : Nat := 0x1

/-- `DB_EXCL` flag from `db.h`. -/
def DB_EXCL : Nat := 0x4

/-- A Berkeley DB `DBT` ("thing"): a described byte buffer.
`data = none` is a NULL data pointer. -/
structure DBT where
  data : Option Bytes
  size : Nat
  ulen : Nat
  dlen : Nat
  doff : Nat
  flags : Nat
deriving DecidableEq

/-- `DBT dkey = { 0 }` — the zero-initialised DBT. -/
def dbtZero : DBT := ⟨none, 0, 0, 0, 0, 0⟩

/-- `dbt_init` (bdb.c:89): fill a DBT with a user-memory buffer. Every
field is assigned, so the input DBT's previous content is irrelevant. -/
def dbt_init (dbt : DBT) (data : Option Bytes) (len : Nat) : DBT :=
  { data := data, size := len, ulen := len, dlen := 0, doff := 0, flags := DB_DBT_USERMEM }

/-- `dbt_empty_init` (bdb.c:103): zero out a DBT. -/
def dbt_empty_init (dbt : DBT) : DBT :=
  { data := none, size := 0, ulen := 0, dlen := 0, doff := 0, flags := 0 }

/-- Association-list lookup: the engine's btree search. -/
def tblLookup : DbTable → Bytes → Option Bytes
  | [], _ => none
  | (k, v) :: t, key => if k = key then some v else tblLookup t key

/-- Association-list insert-or-replace: the engine's btree put with
default flags (unconditional overwrite, keys stay unique). -/
def tblPut : DbTable → Bytes → Bytes → DbTable
  | [], key, val => [(key, val)]
  | (k, v) :: t, key, val =>
      if k = key then (key, val) :: t else (k, v) :: tblPut t key val

/-- Association-list erase: the engine's btree delete of a key. -/
def tblDel : DbTable → Bytes → DbTable
  | [], _ => []
  | (k, v) :: t, key => if k = key then tblDel t key else (k, v) :: tblDel t key

/-- The keys of a table. -/
def tblKeys (t : DbTable) : List Bytes := t.map Prod.fst

/-- Modelled from the spec: `DB->get` with a `DB_DBT_MALLOC` output DBT.
On a hit it returns 0 and fills the output DBT with a freshly allocated,
caller-owned copy of the value and its length; on `DB_NOTFOUND`, and
equally when the engine reports an internal error (`internalErr`), it
leaves the output DBT untouched — data pointer NULL, size 0 as
initialised. (`db.h` is not in `src/`; behaviour follows the spec's
description of fetch and of the not-found/error conflation.) -/
def db_get (t : DbTable) (dkey : DBT) (data : DBT) (internalErr : Bool) : Int × DBT :=
  if internalErr then
    (-1, data)
  else
    match tblLookup t (dkey.data.getD []) with
    | some v => (0, { data with data := some v, size := v.length })
    | none => (DB_NOTFOUND, data)

/-- Modelled from the spec: `DB->put` with default flags — unconditional
insert-or-overwrite; `writeErr` is the engine rejecting the write (disk
full, corruption), in which case the table is unchanged and a nonzero
code is returned. -/
def db_put (t : DbTable) (dkey : DBT) (databuf : DBT) (writeErr : Bool) : Int × DbTable :=
  if writeErr then
    (-1, t)
  else
    (0, tblPut t (dkey.data.getD []) (databuf.data.getD []))

/-- Modelled from the spec: `DB->del` — removes the key if present
(returning 0), reports `DB_NOTFOUND` and changes nothing if absent. -/
def db_del (t : DbTable) (dkey : DBT) : Int × DbTable :=
  match tblLookup t (dkey.data.getD []) with
  | some _ => (0, tblDel t (dkey.data.getD []))
  | none => (DB_NOTFOUND, t)

/-- `struct StoreDbCtx` (bdb.c:47): the handle's aggregated native state.
`env` stands for the `DB_ENV *` handle, `db` for the `DB *` handle
together with the btree content it reaches, `fd` for the locked
descriptor, `lockfile` for the sidecar path buffer. -/
structure StoreDbCtx where
  env : Bool
  db : DbTable
  fd : Nat
  lockfile : String
deriving DecidableEq

/-- The system resources an open attempt or session can hold, plus the
on-disk store content. `disk = none` means no store file exists at the
path; `lockFileExists` tracks the sidecar `<path>-lock-hack` file. -/
structure Sys where
  lockFileExists : Bool
  fdOpen : Bool
  lockHeld : Bool
  envLive : Bool
  dbLive : Bool
  disk : Option DbTable
deriving DecidableEq

/-- True when no resource of an open attempt remains held: no sidecar
file, no open descriptor, no advisory lock, no live engine
environment/database state. (Disk content is data, not a held resource.) -/
def sysClean (s : Sys) : Bool :=
  !s.lockFileExists && !s.fdOpen && !s.lockHeld && !s.envLive && !s.dbLive

/-- Release events, for stating the order `store_bdb_close` releases
resources in. -/
inductive Ev where
  | dbClose
  | envClose
  | unlock
  | closeFd
  | unlinkLock
  | freeCtx
deriving DecidableEq

/-- `ctx->db->close(ctx->db, 0)`: release the database object. -/
def dbCloseOp (s : Sys) : Sys × Ev :=
  ({ s with dbLive := false }, Ev.dbClose)

/-- `ctx->env->close(ctx->env, 0)`: release the environment. -/
def envCloseOp (s : Sys) : Sys × Ev :=
  ({ s with envLive := false }, Ev.envClose)

/-- Modelled from the spec: `mutt_file_unlock(fd)` drops the advisory
lock on the descriptor. -/
def mutt_file_unlock (s : Sys) : Sys × Ev :=
  ({ s with lockHeld := false }, Ev.unlock)

/-- `close(fd)`: the POSIX close of the lock-file descriptor. -/
def close_fd (s : Sys) : Sys × Ev :=
  ({ s with fdOpen := false }, Ev.closeFd)

/-- `unlink(buf_string(&ctx->lockfile))`: delete the sidecar lock file. -/
def unlink_lockfile (s : Sys) : Sys × Ev :=
  ({ s with lockFileExists := false }, Ev.unlinkLock)

/-- Outcome oracle for the external calls `store_bdb_open` makes, one
boolean per fallible step, in source order (bdb.c:127-161). -/
structure OpenOracle where
  sysOpenOk : Bool
  lockOk : Bool
  envCreateOk : Bool
  envOpenOk : Bool
  dbCreateOk : Bool
  dbOpenOk : Bool
deriving DecidableEq

/-- The oracle on which every external step of open succeeds. -/
def allOk : OpenOracle := ⟨true, true, true, true, true, true⟩

/-- The `fail_close` tail of the unwind ladder (bdb.c:172-174):
`close(ctx->fd); unlink(lockfile);` then `bdb_sdata_free`. -/
def fail_close_path (s : Sys) : Sys :=
  (unlink_lockfile (close_fd s).1).1

/-- The `fail_unlock` tail (bdb.c:170): `mutt_file_unlock(ctx->fd)` then
fall through to `fail_close`. -/
def fail_unlock_path (s : Sys) : Sys :=
  fail_close_path (mutt_file_unlock s).1

/-- The `fail_env` tail (bdb.c:168): `ctx->env->close(ctx->env, 0)` then
fall through to `fail_unlock`. -/
def fail_env_path (s : Sys) : Sys :=
  fail_unlock_path (envCloseOp s).1

/-- The `fail_db` tail (bdb.c:166): `ctx->db->close(ctx->db, 0)` then
fall through to `fail_env`. -/
def fail_db_path (s : Sys) : Sys :=
  fail_env_path (dbCloseOp s).1

/-- `store_bdb_open` (bdb.c:116). Null path returns NULL at once.
Otherwise: build the sidecar path `<path>-lock-hack`; `open` it with
`O_WRONLY|O_CREAT` (on success the file exists and a descriptor is
open); take the blocking exclusive advisory lock; `db_env_create`;
`env->open`; `db_create`; probe `stat(path)` to pick `DB_CREATE` or
`DB_CREATE|DB_EXCL` (plus a 512-byte pagesize when creating fresh);
`db->open`. Each failure takes the matching `goto` label. On success the
handle holds the table read from the store file (empty if just
created). -/
def store_bdb_open (path : Option String) (o : OpenOracle) (s : Sys) :
    Option StoreDbCtx × Sys :=
  match path with
  | none => (none, s)
  | some p =>
    let lockfile := p ++ "-lock-hack"
    if o.sysOpenOk = false then
      -- ctx->fd < 0: FREE(&ctx); return NULL — nothing was acquired
      (none, s)
    else
      -- O_CREAT succeeded: sidecar exists, descriptor open
      let s1 : Sys := { s with lockFileExists := true, fdOpen := true }
      if o.lockOk = false then
        (none, fail_close_path s1)
      else
        let s2 : Sys := { s1 with lockHeld := true }
        if o.envCreateOk = false then
          (none, fail_unlock_path s2)
        else
          -- db_env_create allocated the environment handle
          let s3 : Sys := { s2 with envLive := true }
          if o.envOpenOk = false then
            (none, fail_env_path s3)
          else if o.dbCreateOk = false then
            -- db_create failed: no DB object, unwind from fail_env
            (none, fail_env_path s3)
          else
            let s4 : Sys := { s3 with dbLive := true }
            let createflags : Nat :=
              if s4.disk.isNone then DB_CREATE ||| DB_EXCL else DB_CREATE
            if o.dbOpenOk = false then
              (none, fail_db_path s4)
            else
              (some { env := true, db := s4.disk.getD [], fd := 0, lockfile := lockfile },
               { s4 with disk := some (s4.disk.getD []) })

/-- `store_bdb_fetch` (bdb.c:183). A null store returns NULL without
touching `*vlen` (the `vlen` argument threads the caller's variable
through). Otherwise the key DBT is `dbt_init`-ed, the data DBT is
zeroed and flagged `DB_DBT_MALLOC`, `db->get` is called with its return
code discarded, and `*vlen = data.size; return data.data`. -/
def store_bdb_fetch (store : Option StoreDbCtx) (key : Bytes)
    (internalErr : Bool) (vlen : Nat) : Option Bytes × Nat :=
  match store with
  | none => (none, vlen)
  | some ctx =>
    let dkey := dbt_init dbtZero (some key) key.length
    let data := dbt_empty_init dbtZero
    let data := { data with flags := DB_DBT_MALLOC }
    let r := db_get ctx.db dkey data internalErr
    (r.2.data, r.2.size)

/-- `store_bdb_store` (bdb.c:216). A null store returns -1. Otherwise
the key DBT is `dbt_init`-ed, the data DBT is zeroed then filled with
the caller's buffer under `DB_DBT_USERMEM`, and `db->put`'s return code
is returned; the updated table is threaded back as the new handle
state. -/
def store_bdb_store (store : Option StoreDbCtx) (key : Bytes) (value : Bytes)
    (writeErr : Bool) : Int × Option StoreDbCtx :=
  match store with
  | none => (-1, none)
  | some ctx =>
    let dkey := dbt_init dbtZero (some key) key.length
    let databuf := dbt_empty_init dbtZero
    let databuf := { databuf with
                     flags := DB_DBT_USERMEM
                     data := some value
                     size := value.length
                     ulen := value.length }
    let r := db_put ctx.db dkey databuf writeErr
    (r.1, some { ctx with db := r.2 })

/-- `store_bdb_delete_record` (bdb.c:241). A null store returns -1.
Otherwise the key DBT is `dbt_init`-ed and `db->del`'s return code is
surfaced unchanged. -/
def store_bdb_delete_record (store : Option StoreDbCtx) (key : Bytes) :
    Int × Option StoreDbCtx :=
  match store with
  | none => (-1, none)
  | some ctx =>
    let dkey := dbt_init dbtZero (some key) key.length
    let r := db_del ctx.db dkey
    (r.1, some { ctx with db := r.2 })

/-- `store_bdb_close` (bdb.c:257). Takes a pointer to the handle pointer:
`none` is a NULL `ptr`, `some none` a NULL `*ptr`; both are no-ops.
Otherwise it releases, in source order: the database object (whose close
flushes the btree to the store file on disk), the environment, the
advisory lock, the descriptor, the sidecar file; then `bdb_sdata_free`
frees the handle memory and nulls `*ptr`. The event list records the
order the releases happened in. -/
def store_bdb_close (ptr : Option (Option StoreDbCtx)) (s : Sys) :
    Option (Option StoreDbCtx) × Sys × List Ev :=
  match ptr with
  | none => (none, s, [])
  | some none => (some none, s, [])
  | some (some db) =>
    let (s1, e1) := dbCloseOp s
    let s1 : Sys := { s1 with disk := some db.db }
    let (s2, e2) := envCloseOp s1
    let (s3, e3) := mutt_file_unlock s2
    let (s4, e4) := close_fd s3
    let (s5, e5) := unlink_lockfile s4
    (some none, s5, [e1, e2, e3, e4, e5, Ev.freeCtx])

/-! Association-list lemmas about the modelled engine table. -/

/-- Looking up a key just put always yields the value just put. -/
theorem tblLookup_put_self (t : DbTable) (k v : Bytes) :
    tblLookup (tblPut t k v) k = some v := by
  induction t with
  | nil => simp [tblPut, tblLookup]
  | cons hd tl ih =>
    obtain ⟨a, b⟩ := hd
    by_cases hak : a = k
    · simp [tblPut, hak, tblLookup]
    · simp [tblPut, hak, tblLookup, ih]

/-- Looking up a key after erasing it yields nothing. -/
theorem tblLookup_del_self (t : DbTable) (k : Bytes) :
    tblLookup (tblDel t k) k = none := by
  induction t with
  | nil => simp [tblDel, tblLookup]
  | cons hd tl ih =>
    obtain ⟨a, b⟩ := hd
    by_cases hak : a = k
    · simp [tblDel, hak, ih]
    · simp [tblDel, hak, tblLookup, ih]

/-- The keys after a put are the old keys plus (at most) the new key. -/
theorem mem_tblKeys_put (t : DbTable) (k v x : Bytes) :
    x ∈ tblKeys (tblPut t k v) ↔ x = k ∨ x ∈ tblKeys t := by
  induction t with
  | nil => simp [tblPut, tblKeys]
  | cons hd tl ih =>
    obtain ⟨a, b⟩ := hd
    by_cases hak : a = k
    · subst hak
      simp [tblPut, tblKeys]
    · simp [tblPut, hak, tblKeys] at ih ⊢
      tauto

/-- A put keeps the table's keys unique. -/
theorem tblKeys_nodup_put (t : DbTable) (k v : Bytes)
    (h : (tblKeys t).Nodup) : (tblKeys (tblPut t k v)).Nodup := by
  simp only [tblKeys] at h ⊢
  induction t with
  | nil => simp [tblPut]
  | cons hd tl ih =>
    obtain ⟨a, b⟩ := hd
    rw [List.map_cons, List.nodup_cons] at h
    by_cases hak : a = k
    · subst hak
      have hput : tblPut ((a, b) :: tl) a v = (a, v) :: tl := by simp [tblPut]
      rw [hput, List.map_cons, List.nodup_cons]
      exact h
    · have hput : tblPut ((a, b) :: tl) k v = (a, b) :: tblPut tl k v := by
        simp [tblPut, hak]
      rw [hput, List.map_cons, List.nodup_cons]
      refine ⟨?_, ih h.2⟩
      intro hmem
      rcases (mem_tblKeys_put tl k v a).mp (by simpa [tblKeys] using hmem) with h1 | h1
      · exact hak h1
      · exact h.1 (by simpa [tblKeys] using h1)

/-! Claim theorems. -/

/-- C3: for every open handle and key, when the key is absent and when
the engine's lookup reports an internal error, `store_bdb_fetch` returns
exactly the same observable result — no value (NULL) and a reported
length of zero — so the two conditions are indistinguishable to the
caller. -/
theorem fetch_miss_and_error_indistinguishable (ctx : StoreDbCtx) (k : Bytes) (n : Nat)
    (habs : tblLookup ctx.db k = none) :
    store_bdb_fetch (some ctx) k false n = (none, 0) ∧
    store_bdb_fetch (some ctx) k true n = (none, 0) ∧
    store_bdb_fetch (some ctx) k true n = store_bdb_fetch (some ctx) k false n := by
  simp [store_bdb_fetch, db_get, dbt_init, dbt_empty_init, dbtZero, habs]

/-- Witness for C3 at a concrete handle with an empty table. -/
theorem fetch_miss_and_error_indistinguishable_witness :
    tblLookup (StoreDbCtx.db ⟨true, [], 0, "L"⟩) [0] = none ∧
    store_bdb_fetch (some ⟨true, [], 0, "L"⟩) [0] false 5 = (none, 0) ∧
    store_bdb_fetch (some ⟨true, [], 0, "L"⟩) [0] true 5 = (none, 0) ∧
    store_bdb_fetch (some ⟨true, [], 0, "L"⟩) [0] true 5 =
      store_bdb_fetch (some ⟨true, [], 0, "L"⟩) [0] false 5 := by
  have h := fetch_miss_and_error_indistinguishable ⟨true, [], 0, "L"⟩ [0] 5 (by decide)
  exact ⟨by decide, h.1, h.2.1, h.2.2⟩

/-- C4: `store_bdb_close` on a successfully opened handle releases the
resources in exactly the reverse of acquisition order — database object,
then environment, then the Lock Guard (unlock, close descriptor, delete
sidecar) — then frees the handle memory (nulling `*ptr`), and afterwards
no resource remains held, in particular the sidecar lock file is gone. -/
theorem close_releases_in_reverse_order (ctx : StoreDbCtx) (s : Sys) :
    (store_bdb_close (some (some ctx)) s).2.2 =
      [Ev.dbClose, Ev.envClose, Ev.unlock, Ev.closeFd, Ev.unlinkLock, Ev.freeCtx] ∧
    (store_bdb_close (some (some ctx)) s).1 = some none ∧
    sysClean (store_bdb_close (some (some ctx)) s).2.1 = true ∧
    (store_bdb_close (some (some ctx)) s).2.1.lockFileExists = false := by
  simp [store_bdb_close, dbCloseOp, envCloseOp, mutt_file_unlock, close_fd,
        unlink_lockfile, sysClean]

/-- C6: after a successful delete of a present key, a subsequent fetch of
that key reports not-found — no value, zero length. -/
theorem delete_then_fetch_not_found (ctx : StoreDbCtx) (k v : Bytes) (n : Nat)
    (hpres : tblLookup ctx.db k = some v) :
    (store_bdb_delete_record (some ctx) k).1 = 0 ∧
    store_bdb_fetch (store_bdb_delete_record (some ctx) k).2 k false n = (none, 0) := by
  simp [store_bdb_delete_record, store_bdb_fetch, db_del, db_get, dbt_init,
        dbt_empty_init, dbtZero, hpres, tblLookup_del_self]

/-- Witness for C6 at a concrete one-entry table. -/
theorem delete_then_fetch_not_found_witness :
    tblLookup (StoreDbCtx.db ⟨true, [([1], [2])], 0, "L"⟩) [1] = some [2] ∧
    (store_bdb_delete_record (some ⟨true, [([1], [2])], 0, "L"⟩) [1]).1 = 0 ∧
    store_bdb_fetch (store_bdb_delete_record (some ⟨true, [([1], [2])], 0, "L"⟩) [1]).2
      [1] false 0 = (none, 0) := by
  have h := delete_then_fetch_not_found ⟨true, [([1], [2])], 0, "L"⟩ [1] [2] 0 (by decide)
  exact ⟨by decide, h.1, h.2⟩

/-- C7: deleting an absent key surfaces the engine's non-success code
(`DB_NOTFOUND`, nonzero) and leaves the store's key/value contents — the
handle state — exactly as they were. -/
theorem delete_missing_key_frame (ctx : StoreDbCtx) (k : Bytes)
    (habs : tblLookup ctx.db k = none) :
    (store_bdb_delete_record (some ctx) k).1 = DB_NOTFOUND ∧
    DB_NOTFOUND ≠ 0 ∧
    (store_bdb_delete_record (some ctx) k).2 = some ctx := by
  refine ⟨?_, by decide, ?_⟩ <;>
    simp [store_bdb_delete_record, db_del, dbt_init, dbtZero, habs]

/-- Witness for C7 at a concrete table not containing the key. -/
theorem delete_missing_key_frame_witness :
    tblLookup (StoreDbCtx.db ⟨true, [([1], [2])], 0, "L"⟩) [3] = none ∧
    (store_bdb_delete_record (some ⟨true, [([1], [2])], 0, "L"⟩) [3]).1 = DB_NOTFOUND ∧
    DB_NOTFOUND ≠ 0 ∧
    (store_bdb_delete_record (some ⟨true, [([1], [2])], 0, "L"⟩) [3]).2 =
      some ⟨true, [([1], [2])], 0, "L"⟩ := by
  have h := delete_missing_key_frame ⟨true, [([1], [2])], 0, "L"⟩ [3] (by decide)
  exact ⟨by decide, h.1, h.2.1, h.2.2⟩

/-- C10: every operation given a NULL handle fails without side effects —
open on a NULL path returns no handle and changes nothing on disk, fetch
on a NULL handle returns no value and leaves the caller's length variable
untouched, store and delete on a NULL handle return -1, and close on a
NULL pointer or a pointer to NULL is a no-op. -/
theorem null_handle_no_op :
    (∀ o s, store_bdb_open none o s = (none, s)) ∧
    (∀ k e n, store_bdb_fetch none k e n = (none, n)) ∧
    (∀ k v e, store_bdb_store none k v e = (-1, none)) ∧
    (∀ k, store_bdb_delete_record none k = (-1, none)) ∧
    (∀ s, store_bdb_close none s = (none, s, [])) ∧
    (∀ s, store_bdb_close (some none) s = (some none, s, [])) :=
  ⟨fun o s => rfl, fun k e n => rfl, fun k v e => rfl, fun k => rfl,
   fun s => rfl, fun s => rfl⟩

/-- C5: a successful store of V2 under an already-present key K
unconditionally replaces the old value — no compare-and-swap or version
check guards the overwrite — every subsequent fetch of K returns V2
only, and the table's keys remain unique. -/
theorem store_overwrites_existing_key (ctx : StoreDbCtx) (k v1 v2 : Bytes) (n : Nat)
    (hprev : tblLookup ctx.db k = some v1)
    (hnodup : (tblKeys ctx.db).Nodup) :
    (store_bdb_store (some ctx) k v2 false).1 = 0 ∧
    (store_bdb_store (some ctx) k v2 false).2 = some { ctx with db := tblPut ctx.db k v2 } ∧
    tblLookup (tblPut ctx.db k v2) k = some v2 ∧
    (tblKeys (tblPut ctx.db k v2)).Nodup ∧
    store_bdb_fetch (store_bdb_store (some ctx) k v2 false).2 k false n =
      (some v2, v2.length) := by
  refine ⟨rfl, ?_, tblLookup_put_self ctx.db k v2, tblKeys_nodup_put ctx.db k v2 hnodup, ?_⟩
  · simp [store_bdb_store, db_put, dbt_init, dbt_empty_init, dbtZero]
  · simp [store_bdb_store, store_bdb_fetch, db_put, db_get, dbt_init, dbt_empty_init,
          dbtZero, tblLookup_put_self]

/-- Witness for C5: overwrite the single binding of a one-entry table. -/
theorem store_overwrites_existing_key_witness :
    tblLookup (StoreDbCtx.db ⟨true, [([1], [2])], 0, "L"⟩) [1] = some [2] ∧
    (tblKeys (StoreDbCtx.db ⟨true, [([1], [2])], 0, "L"⟩)).Nodup ∧
    (store_bdb_store (some ⟨true, [([1], [2])], 0, "L"⟩) [1] [7, 8] false).1 = 0 ∧
    tblLookup (tblPut [([1], [2])] [1] [7, 8]) [1] = some [7, 8] ∧
    (tblKeys (tblPut [([1], [2])] [1] [7, 8])).Nodup ∧
    store_bdb_fetch (store_bdb_store (some ⟨true, [([1], [2])], 0, "L"⟩) [1] [7, 8] false).2
      [1] false 0 = (some [7, 8], 2) := by
  have h := store_overwrites_existing_key ⟨true, [([1], [2])], 0, "L"⟩ [1] [2] [7, 8] 0
    (by decide) (by decide)
  exact ⟨by decide, by decide, h.1, h.2.2.1, h.2.2.2.1, h.2.2.2.2⟩

/-- C2: after a successful store of V under K, a fetch of K on the same
handle — or on a fresh handle obtained by closing the handle and
reopening the same path — returns exactly V with length `V.length`. -/
theorem store_fetch_roundtrip (ctx : StoreDbCtx) (k v : Bytes) (s : Sys) (p : String) (n : Nat) :
    (store_bdb_store (some ctx) k v false).1 = 0 ∧
    store_bdb_fetch (store_bdb_store (some ctx) k v false).2 k false n =
      (some v, v.length) ∧
    store_bdb_fetch
      (store_bdb_open (some p) allOk
        (store_bdb_close (some (store_bdb_store (some ctx) k v false).2) s).2.1).1
      k false n = (some v, v.length) := by
  refine ⟨rfl, ?_, ?_⟩
  · simp [store_bdb_store, store_bdb_fetch, db_put, db_get, dbt_init, dbt_empty_init,
          dbtZero, tblLookup_put_self]
  · simp [store_bdb_store, store_bdb_close, store_bdb_open, allOk, db_put,
          dbt_init, dbt_empty_init, dbtZero, dbCloseOp, envCloseOp, mutt_file_unlock,
          close_fd, unlink_lockfile]
    simp [store_bdb_fetch, db_get, dbt_init, dbt_empty_init, dbtZero, tblLookup_put_self]

/-- C8: when the Lock Guard's acquire fails — the sidecar file cannot be
created/opened, or the exclusive advisory lock cannot be obtained — open
returns no handle and, starting from a state where nothing is held, the
state is exactly unchanged: nothing was acquired, so nothing remains. -/
theorem acquire_failure_returns_failure (p : String) (o : OpenOracle) (s : Sys)
    (hclean : sysClean s = true)
    (hfail : o.sysOpenOk = false ∨ o.lockOk = false) :
    store_bdb_open (some p) o s = (none, s) := by
  obtain ⟨o1, o2, o3, o4, o5, o6⟩ := o
  obtain ⟨a, b, c, d, e, dk⟩ := s
  simp only [sysClean, Bool.and_eq_true, Bool.not_eq_true'] at hclean
  obtain ⟨⟨⟨⟨ha, hb⟩, hc⟩, hd⟩, he⟩ := hclean
  subst ha hb hc hd he
  cases o1 <;> cases o2 <;>
    simp_all [store_bdb_open, fail_close_path, close_fd, unlink_lockfile]

/-- Witness for C8: the advisory lock cannot be obtained. -/
theorem acquire_failure_returns_failure_witness :
    sysClean ⟨false, false, false, false, false, none⟩ = true ∧
    store_bdb_open (some "s") ⟨true, false, true, true, true, true⟩
      ⟨false, false, false, false, false, none⟩ =
      (none, ⟨false, false, false, false, false, none⟩) := by
  have h := acquire_failure_returns_failure "s" ⟨true, false, true, true, true, true⟩
    ⟨false, false, false, false, false, none⟩ (by decide) (Or.inr rfl)
  exact ⟨by decide, h⟩

/-- C1: if any step of open fails — lock-file creation, lock
acquisition, environment creation, environment open, database creation,
or database open — open returns no handle and, starting from a state
holding nothing, ends holding nothing: descriptor closed, lock released,
sidecar gone, environment and database closed; an immediate retry on the
same path with all steps succeeding is not blocked and yields a handle. -/
theorem open_failure_full_cleanup (p : String) (o : OpenOracle) (s : Sys)
    (hclean : sysClean s = true)
    (hfail : (o.sysOpenOk && o.lockOk && o.envCreateOk && o.envOpenOk &&
              o.dbCreateOk && o.dbOpenOk) = false) :
    (store_bdb_open (some p) o s).1 = none ∧
    sysClean (store_bdb_open (some p) o s).2 = true ∧
    Option.isSome (store_bdb_open (some p) allOk (store_bdb_open (some p) o s).2).1 = true := by
  obtain ⟨o1, o2, o3, o4, o5, o6⟩ := o
  obtain ⟨a, b, c, d, e, dk⟩ := s
  simp only [sysClean, Bool.and_eq_true, Bool.not_eq_true'] at hclean
  obtain ⟨⟨⟨⟨ha, hb⟩, hc⟩, hd⟩, he⟩ := hclean
  subst ha hb hc hd he
  cases o1 <;> cases o2 <;> cases o3 <;> cases o4 <;> cases o5 <;> cases o6 <;>
    simp_all [store_bdb_open, sysClean, allOk, fail_close_path, fail_unlock_path,
              fail_env_path, fail_db_path, close_fd, unlink_lockfile,
              mutt_file_unlock, envCloseOp, dbCloseOp]

/-- Witness for C1: the deepest failure, `db->open` itself failing after
everything else was acquired. -/
theorem open_failure_full_cleanup_witness :
    sysClean ⟨false, false, false, false, false, none⟩ = true ∧
    (store_bdb_open (some "s") ⟨true, true, true, true, true, false⟩
        ⟨false, false, false, false, false, none⟩).1 = none ∧
    sysClean (store_bdb_open (some "s") ⟨true, true, true, true, true, false⟩
        ⟨false, false, false, false, false, none⟩).2 = true ∧
    Option.isSome (store_bdb_open (some "s") allOk
        (store_bdb_open (some "s") ⟨true, true, true, true, true, false⟩
          ⟨false, false, false, false, false, none⟩).2).1 = true := by
  have h := open_failure_full_cleanup "s" ⟨true, true, true, true, true, false⟩
    ⟨false, false, false, false, false, none⟩ (by decide) (by decide)
  exact ⟨by decide, h.1, h.2.1, h.2.2⟩
